import Mathlib

set_option maxRecDepth 1000000

/-!
Verification of the area-of-interest OSM data-acquisition pipeline and the
layer-state synchronization logic of the map-viewer client
(`src/components/geo-mapper-client.tsx`).

Modelling conventions:
* JavaScript numbers are idealized as rationals (`ℚ`); a possibly non-finite
  number (`NaN`/`±Infinity`) is `Option ℚ` with `none` standing for any
  non-finite value.  Inside `fetchOSMData` arithmetic is only ever performed
  after an `isFinite` guard, so finite-only arithmetic is faithful.
* OpenLayers objects (vector layers, sources) are identified by `Nat`
  handles; JavaScript object identity (`===`) is handle equality.
* The projection library (`transformExtent`), the HTTP transport, and the
  `osmtogeojson` + `GeoJSON().readFeatures` format conversions are trusted
  external collaborators and appear as oracle parameters: the transform as a
  function from the four finite planar coordinates to a (possibly
  non-finite) geographic extent, the transport as a function from the query
  string to a response whose body is already the normalized feature list.
* React state updates (`setLayers`, `setIsFetchingOSM`) and toast
  notifications are modelled as explicit result values.
-/

/-- A JavaScript number: `none` represents a non-finite value. -/
abbrev JsNum := Option ℚ

/-- An OpenLayers extent `[minX, minY, maxX, maxY]` (source:
`geometry.getExtent()` / `transformExtent` results). -/
structure JsExtent where
  c0 : JsNum
  c1 : JsNum
  c2 : JsNum
  c3 : JsNum
deriving DecidableEq, Repr

/-- Geometry types produced by the drawing interaction. -/
inductive GeomType where
  | point
  | lineString
  | polygon
deriving DecidableEq, Repr

/-- A drawn geometry: its `getType()` tag and its `getExtent()`. -/
structure Geometry where
  geomType : GeomType
  extent : JsExtent
deriving DecidableEq, Repr

/-- A feature in the scratch drawing source; `getGeometry()` may be null. -/
structure DrawnFeature where
  geometry : Option Geometry
deriving DecidableEq, Repr

/-- A feature's `properties` object (OSM tags): `none` when the tags object
itself is null/undefined, otherwise key/value pairs (first binding wins, as
for JavaScript property lookup). -/
abbrev TagMap := Option (List (String × String))

/-- `tags.k`: property lookup returning `none` for an absent key. -/
def tagVal (tags : List (String × String)) (k : String) : Option String :=
  (tags.find? (fun p => p.1 == k)).map (fun p => p.2)

/-- JavaScript truthiness of a string-valued property (`!!tags.k`):
present and not the empty string. -/
def truthy : Option String → Bool
  | none => false
  | some s => s ≠ ""

/-- `ol/style` stroke descriptor. -/
structure StrokeDesc where
  color : String
  width : ℚ
  lineDash : List ℚ := []
deriving DecidableEq, Repr

/-- `ol/style` fill descriptor. -/
structure FillDesc where
  color : String
deriving DecidableEq, Repr

/-- `ol/style` circle-image descriptor. -/
structure CircleDesc where
  radius : ℚ
  fill : FillDesc
  stroke : StrokeDesc
deriving DecidableEq, Repr

/-- An `ol/style` Style as constructed in `osmCategoryConfig`. -/
structure StyleDesc where
  stroke : Option StrokeDesc := none
  fill : Option FillDesc := none
  image : Option CircleDesc := none
deriving DecidableEq, Repr

/-- One entry of the static OSM category table (`OSMCategoryConfig`). -/
structure OSMCategoryConfig where
  id : String
  name : String
  overpassQueryFragment : String → String
  matcher : TagMap → Bool
  style : StyleDesc

/-- `matcher` body for `watercourses`:
`tags && (tags.waterway === 'river' || tags.waterway === 'stream')`. -/
def watercoursesMatcher : TagMap → Bool
  | none => false
  | some t => tagVal t "waterway" == some "river" || tagVal t "waterway" == some "stream"

/-- `matcher` body for `water_bodies`. -/
def waterBodiesMatcher : TagMap → Bool
  | none => false
  | some t => tagVal t "natural" == some "water" || tagVal t "landuse" == some "reservoir"

/-- `matcher` body for `roads_paths`: `tags && !!tags.highway`. -/
def roadsPathsMatcher : TagMap → Bool
  | none => false
  | some t => truthy (tagVal t "highway")

/-- `matcher` body for `admin_boundaries`. -/
def adminBoundariesMatcher : TagMap → Bool
  | none => false
  | some t => tagVal t "boundary" == some "administrative" && truthy (tagVal t "admin_level")

/-- `matcher` body for `green_areas`. -/
def greenAreasMatcher : TagMap → Bool
  | none => false
  | some t =>
      tagVal t "leisure" == some "park" || tagVal t "landuse" == some "forest" ||
        tagVal t "natural" == some "wood"

/-- `matcher` body for `health_centers`:
`['hospital','clinic','doctors','pharmacy'].includes(tags.amenity)`. -/
def healthCentersMatcher : TagMap → Bool
  | none => false
  | some t =>
      match tagVal t "amenity" with
      | some v => ["hospital", "clinic", "doctors", "pharmacy"].contains v
      | none => false

/-- `matcher` body for `educational`. -/
def educationalMatcher : TagMap → Bool
  | none => false
  | some t =>
      match tagVal t "amenity" with
      | some v => ["school", "university", "college", "kindergarten"].contains v
      | none => false

/-- The static `osmCategoryConfig` table from the source. -/
def osmCategoryConfig : List OSMCategoryConfig :=
  [ { id := "watercourses"
    , name := "OSM Cursos de Agua"
    , overpassQueryFragment := fun bboxStr =>
        "nwr[waterway~\"^(river|stream)$\"](" ++ bboxStr ++ ");"
    , matcher := watercoursesMatcher
    , style := { stroke := some { color := "#3a86ff", width := 2 } } }
  , { id := "water_bodies"
    , name := "OSM Cuerpos de Agua"
    , overpassQueryFragment := fun bboxStr =>
        "nwr[natural=\"water\"](" ++ bboxStr ++ ");\nnwr[landuse=\"reservoir\"](" ++ bboxStr ++ ");"
    , matcher := waterBodiesMatcher
    , style := { fill := some { color := "rgba(58,134,255,0.4)" }
               , stroke := some { color := "#3a86ff", width := 1 } } }
  , { id := "roads_paths"
    , name := "OSM Rutas y Caminos"
    , overpassQueryFragment := fun bboxStr => "nwr[highway](" ++ bboxStr ++ ");"
    , matcher := roadsPathsMatcher
    , style := { stroke := some { color := "#adb5bd", width := 3 } } }
  , { id := "admin_boundaries"
    , name := "OSM Límites Admin."
    , overpassQueryFragment := fun bboxStr =>
        "nwr[boundary=\"administrative\"][admin_level](" ++ bboxStr ++ ");"
    , matcher := adminBoundariesMatcher
    , style := { stroke := some { color := "#ff006e", width := 2, lineDash := [4, 8] } } }
  , { id := "green_areas"
    , name := "OSM Áreas Verdes"
    , overpassQueryFragment := fun bboxStr =>
        "nwr[leisure=\"park\"](" ++ bboxStr ++ ");\nnwr[landuse=\"forest\"](" ++ bboxStr ++
          ");\nnwr[natural=\"wood\"](" ++ bboxStr ++ ");"
    , matcher := greenAreasMatcher
    , style := { fill := some { color := "rgba(13,166,75,0.4)" }
               , stroke := some { color := "#0da64b", width := 1 } } }
  , { id := "health_centers"
    , name := "OSM Centros de Salud"
    , overpassQueryFragment := fun bboxStr =>
        "nwr[amenity~\"^(hospital|clinic|doctors|pharmacy)$\"](" ++ bboxStr ++ ");"
    , matcher := healthCentersMatcher
    , style := { image := some { radius := 6, fill := { color := "#d90429" }
                               , stroke := { color := "white", width := 3/2 } } } }
  , { id := "educational"
    , name := "OSM Educacionales"
    , overpassQueryFragment := fun bboxStr =>
        "nwr[amenity~\"^(school|university|college|kindergarten)$\"](" ++ bboxStr ++ ");"
    , matcher := educationalMatcher
    , style := { image := some { radius := 6, fill := { color := "#8338ec" }
                               , stroke := { color := "white", width := 3/2 } } } }
  ]

/-! ## The fetch pipeline (`fetchOSMData`) -/

/-- A normalized GeoJSON feature of the service response (the output of the
trusted `osmtogeojson` conversion); only `properties` is inspected. -/
structure GeoFeature where
  properties : TagMap
deriving DecidableEq, Repr

/-- Result of the `fetch` transport call: `response.ok`, `response.status`,
`response.statusText`, and (for ok responses) the normalized feature list
obtained from `osmtogeojson(await response.json())`. -/
structure TransportResult where
  ok : Bool
  status : Nat
  statusText : String
  features : List GeoFeature

/-- The distinct failure exits of the `try` block of `fetchOSMData`
(each `throw new Error(...)` site, by its message). -/
inductive PipelineError where
  /-- "Área dibujada tiene una extensión inválida (inválida o puntos/líneas)". -/
  | invalidExtent
  /-- "Fallo al transformar área dibujada a coordenadas geográficas válidas". -/
  | transformFailed
  /-- "Error de Bounding Box (N < S)". -/
  | bboxNS
  /-- "Error de Bounding Box (E < W)". -/
  | bboxEW
  /-- "Error Overpass API: status statusText". -/
  | serviceError (status : Nat) (statusText : String)
deriving DecidableEq, Repr

/-- An application layer created by the classification loop: the record
passed to `addLayer`, with the fresh `VectorLayer` handle represented by
its source features and style. -/
structure OSMLayer where
  id : String
  name : String
  features : List GeoFeature
  style : StyleDesc
  visible : Bool
deriving DecidableEq, Repr

/-- Which toast ended the run (the observable outcome of `fetchOSMData`). -/
inductive RunOutcome where
  /-- "Error de Dibujo": drawing source not initialized. -/
  | notInitialized
  /-- "Sin Dibujos": no drawn features. -/
  | noDrawings
  /-- "Sin Categorías Seleccionadas". -/
  | noCategories
  /-- "Geometría Inválida": last drawn feature is not a polygon. -/
  | invalidGeometry
  /-- "Error Obteniendo Datos OSM": the catch block caught `e`. -/
  | errorCaught (e : PipelineError)
  /-- "Datos OSM Cargados: N entidades añadidas". -/
  | loaded (featuresAddedCount : Nat)
  /-- "Sin Datos OSM Encontrados". -/
  | noData
deriving DecidableEq, Repr

/-- JavaScript rounding to the nearest integer with ties away from zero
(the rounding used by `Number.prototype.toFixed`). -/
def jsRound (q : ℚ) : ℤ :=
  if q < 0 then -(Rat.floor (-q + 1/2)) else Rat.floor (q + 1/2)

/-- `parseFloat(x.toFixed(6))`: round to 6 decimal places. -/
def toFixed6 (q : ℚ) : ℚ :=
  (jsRound (q * 1000000) : ℚ) / 1000000

/-- The Overpass bbox string `"s,w,n,e"` (decimal rendering of the exact
rounded values is abstracted by `toString`). -/
def bboxString (s w n e : ℚ) : String :=
  toString s ++ "," ++ toString w ++ "," ++ toString n ++ "," ++ toString e

/-- The combined Overpass query template with the joined fragments. -/
def mkOverpassQuery (queryParts : List String) : String :=
  "\n        [out:json][timeout:90];\n        (\n          " ++
    String.intercalate "\n          " queryParts ++
    "\n        );\n        out geom;\n      "

/-- All four coordinates of an extent, when all are finite. -/
def finites : JsExtent → Option (ℚ × ℚ × ℚ × ℚ)
  | ⟨some a, some b, some c, some d⟩ => some (a, b, c, d)
  | _ => none

/-- One pass of the classification loop body for one category: filter the
normalized features by the category's `matcher`; when the filtered set is
non-empty, convert (trusted, 1:1) and append one fresh layer, accumulating
`featuresAddedCount`. -/
def classifyStep (features : List GeoFeature) (now : Nat)
    (acc : List OSMLayer × Nat) (category : OSMCategoryConfig) :
    List OSMLayer × Nat :=
  let matched := features.filter (fun f => category.matcher f.properties)
  if matched.length > 0 then
    let olFeatures := matched
    if olFeatures.length > 0 then
      let layerId := "osm-" ++ category.id ++ "-" ++ toString now
      ( acc.1 ++ [{ id := layerId
                  , name := category.name ++ " (" ++ toString olFeatures.length ++ ")"
                  , features := olFeatures
                  , style := category.style
                  , visible := true }]
      , acc.2 + olFeatures.length)
    else acc
  else acc

/-- The `categoriesToFetch.forEach` classification loop of `fetchOSMData`:
produces the added layers (in order) and `featuresAddedCount`. -/
def classifyAll (categoriesToFetch : List OSMCategoryConfig)
    (features : List GeoFeature) (now : Nat) : List OSMLayer × Nat :=
  categoriesToFetch.foldl (classifyStep features now) ([], 0)

/-- The `try` block of `fetchOSMData`: extent validation, transform,
bbox construction and validation, query assembly, the single transport
call, and classification.  Returns the requests issued (query strings),
the layers added, and the `featuresAddedCount` or the thrown error. -/
def fetchTry (geometry : Geometry) (selectedIds : List String)
    (transform : ℚ → ℚ → ℚ → ℚ → JsExtent)
    (transport : String → TransportResult) (now : Nat) :
    List String × List OSMLayer × Except PipelineError Nat :=
  match finites geometry.extent with
  | none => ([], [], .error .invalidExtent)
  | some (x0, y0, x1, y1) =>
    if (x1 - x0 ≤ 0 ∧ x1 ≠ x0) ∨ (y1 - y0 ≤ 0 ∧ y1 ≠ y0) then
      ([], [], .error .invalidExtent)
    else
      match finites (transform x0 y0 x1 y1) with
      | none => ([], [], .error .transformFailed)
      | some (tx0, ty0, tx1, ty1) =>
        let s := toFixed6 ty0
        let w := toFixed6 tx0
        let n := toFixed6 ty1
        let e := toFixed6 tx1
        if n < s then ([], [], .error .bboxNS)
        else if e < w ∧ |e - w| < 180 then ([], [], .error .bboxEW)
        else
          let bboxStr := bboxString s w n e
          let categoriesToFetch :=
            osmCategoryConfig.filter (fun cat => selectedIds.contains cat.id)
          let queryParts := categoriesToFetch.map
            (fun cat => cat.overpassQueryFragment bboxStr)
          let overpassQuery := mkOverpassQuery queryParts
          let resp := transport overpassQuery
          if ¬ resp.ok then
            ([overpassQuery], [], .error (.serviceError resp.status resp.statusText))
          else
            let r := classifyAll categoriesToFetch resp.features now
            ([overpassQuery], r.1, .ok r.2)

/-- Outcome of one run given the last drawn feature: the category guard,
the polygon guard, then the `try`/`catch`/`finally` (the finally resets the
fetching flag to `false` on every path that entered the try). -/
structure CoreResult where
  outcome : RunOutcome
  requests : List String
  addedLayers : List OSMLayer
  isFetching : Bool
deriving Repr

/-- `fetchOSMData` after the last drawn feature has been selected:
guards in source order, then the try block with catch/finally. -/
def fetchCore (fetching0 : Bool) (lastDrawnFeature : DrawnFeature)
    (selectedIds : List String) (transform : ℚ → ℚ → ℚ → ℚ → JsExtent)
    (transport : String → TransportResult) (now : Nat) : CoreResult :=
  if selectedIds.length = 0 then
    { outcome := .noCategories, requests := [], addedLayers := [], isFetching := fetching0 }
  else
    match lastDrawnFeature.geometry with
    | none =>
      { outcome := .invalidGeometry, requests := [], addedLayers := [], isFetching := fetching0 }
    | some geometry =>
      if geometry.geomType ≠ GeomType.polygon then
        { outcome := .invalidGeometry, requests := [], addedLayers := []
        , isFetching := fetching0 }
      else
        let r := fetchTry geometry selectedIds transform transport now
        match r.2.2 with
        | .ok count =>
          { outcome := if count > 0 then .loaded count else .noData
          , requests := r.1, addedLayers := r.2.1, isFetching := false }
        | .error e =>
          { outcome := .errorCaught e, requests := r.1, addedLayers := r.2.1
          , isFetching := false }

/-- The full observable result of one `fetchOSMData` invocation. -/
structure FetchResult where
  outcome : RunOutcome
  requests : List String
  addedLayers : List OSMLayer
  isFetchingFinal : Bool
  drawingSourceAfter : Option (List DrawnFeature)
deriving Repr

/-- `fetchOSMData`: drawing-source guards (initialization, emptiness), the
selection of the last drawn feature (`drawnFeatures[drawnFeatures.length - 1]`),
and the core run.  The scratch drawing source is never mutated by this
version of the pipeline (the `finally` only resets the fetching flag). -/
def fetchOSMData (fetching0 : Bool) (drawingSource : Option (List DrawnFeature))
    (selectedIds : List String) (transform : ℚ → ℚ → ℚ → ℚ → JsExtent)
    (transport : String → TransportResult) (now : Nat) : FetchResult :=
  match drawingSource with
  | none =>
    { outcome := .notInitialized, requests := [], addedLayers := []
    , isFetchingFinal := fetching0, drawingSourceAfter := none }
  | some drawnFeatures =>
    match drawnFeatures.getLast? with
    | none =>
      { outcome := .noDrawings, requests := [], addedLayers := []
      , isFetchingFinal := fetching0, drawingSourceAfter := some drawnFeatures }
    | some lastDrawnFeature =>
      let c := fetchCore fetching0 lastDrawnFeature selectedIds transform transport now
      { outcome := c.outcome, requests := c.requests, addedLayers := c.addedLayers
      , isFetchingFinal := c.isFetching, drawingSourceAfter := some drawnFeatures }

/-! ## The Layer Registry (`layers` state, `addLayer`, `removeLayer`) -/

/-- An application-level layer record (`MapLayer`): the `olLayer` field is
the handle of the engine-native renderable object. -/
structure MapLayer where
  id : String
  name : String
  olLayer : Nat
  visible : Bool
deriving DecidableEq, Repr

/-- `addLayer`: `setLayers(prev => [...prev, newLayer])`. -/
def addLayer (layers : List MapLayer) (newLayer : MapLayer) : List MapLayer :=
  layers ++ [newLayer]

/-- `removeLayer`: filters the registry by id and unconditionally toasts
"Capa Eliminada" (the second component is the toast title shown). -/
def removeLayer (layers : List MapLayer) (layerId : String) : List MapLayer × String :=
  (layers.filter (fun layer => layer.id ≠ layerId), "Capa Eliminada")

/-! ## Map synchronization (`useEffect` reconciliation on `[layers]`) -/

/-- An engine (OpenLayers map) layer object: its identity handle, its
`isBaseLayer` marker, and its mutable `visible` and `zIndex` properties. -/
structure EngineLayer where
  handle : Nat
  isBase : Bool
  visible : Bool
  z : Int
deriving DecidableEq, Repr

/-- Engine mutations performed by the reconciliation effect
(`map.removeLayer` / `map.addLayer` calls). -/
inductive EngineCmd where
  | removeL (handle : Nat)
  | addL (handle : Nat)
deriving DecidableEq, Repr

/-- `l === drawingLayerRef.current` (false when the ref is null). -/
def isDrawingOf (drawing : Option EngineLayer) (l : EngineLayer) : Bool :=
  match drawing with
  | some d => l.handle == d.handle
  | none => false

/-- Negation of the managed-layer filter
`!l.get('isBaseLayer') && l !== drawingLayerRef.current`. -/
def isReservedL (drawing : Option EngineLayer) (l : EngineLayer) : Bool :=
  l.isBase || isDrawingOf drawing l

/-- `olLayer.setVisible(v); olLayer.setZIndex(z)` on the object with the
given handle. -/
def setLayerProps (stack : List EngineLayer) (h : Nat) (vis : Bool) (z : Int) :
    List EngineLayer :=
  stack.map fun l => if l.handle = h then { l with visible := vis, z := z } else l

/-- `olLayer.setZIndex(z)` on the object with the given handle. -/
def setLayerZ (stack : List EngineLayer) (h : Nat) (z : Int) : List EngineLayer :=
  stack.map fun l => if l.handle = h then { l with z := z } else l

/-- `map.getLayers().getArray().includes(obj)` by handle. -/
def containsHandle (stack : List EngineLayer) (h : Nat) : Bool :=
  stack.any fun l => l.handle == h

/-- The engine object added for a registry layer not currently on the map:
if it was removed earlier in this run it is the same object (same
properties); otherwise it is the app-held object (a fresh `VectorLayer`,
not a base layer). -/
def objForLayer (removed : List EngineLayer) (ml : MapLayer) : EngineLayer :=
  match removed.find? (fun l => l.handle == ml.olLayer) with
  | some l => l
  | none => { handle := ml.olLayer, isBase := false, visible := true, z := 0 }

/-- One iteration of `layers.forEach(appLayer => ...)`: add the layer's
renderable if absent, then `setVisible` and `setZIndex(100 + index)`. -/
def syncStep (removed : List EngineLayer) (acc : List EngineLayer × List EngineCmd)
    (p : Nat × MapLayer) : List EngineLayer × List EngineCmd :=
  let ml := p.2
  let acc1 :=
    if containsHandle acc.1 ml.olLayer then acc
    else (acc.1 ++ [objForLayer removed ml], acc.2 ++ [EngineCmd.addL ml.olLayer])
  (setLayerProps acc1.1 ml.olLayer ml.visible (100 + (p.1 : Int)), acc1.2)

/-- `olMapVectorLayers`: the non-base, non-drawing layers currently on the
map, all of which the effect removes. -/
def managedOf (drawing : Option EngineLayer) (stack : List EngineLayer) :
    List EngineLayer :=
  stack.filter fun l => !(isReservedL drawing l)

/-- The engine stack right after the removal loop: only reserved layers. -/
def keptOf (drawing : Option EngineLayer) (stack : List EngineLayer) :
    List EngineLayer :=
  stack.filter fun l => isReservedL drawing l

/-- The removal loop followed by the `layers.forEach` loop: the stack and
command list after steps (1)-(2) of the effect. -/
def syncRun (layers : List MapLayer) (drawing : Option EngineLayer)
    (stack : List EngineLayer) : List EngineLayer × List EngineCmd :=
  (layers.enum).foldl (syncStep (managedOf drawing stack))
    (keptOf drawing stack, (managedOf drawing stack).map fun l => EngineCmd.removeL l.handle)

/-- The reconciliation effect body: (1) remove every non-base, non-drawing
layer from the map; (2) for each registry layer, add its renderable if
absent and set visibility and z-index `100 + i`; (3) if the drawing layer
ref is set, add it if absent and force its z-index to
`100 + layers.length + 100`.  Returns the resulting engine stack and the
`removeLayer`/`addLayer` calls issued. -/
def reconcile (layers : List MapLayer) (drawing : Option EngineLayer)
    (stack : List EngineLayer) : List EngineLayer × List EngineCmd :=
  match drawing with
  | none => syncRun layers none stack
  | some d =>
    let r1 := syncRun layers (some d) stack
    let r2 :=
      if containsHandle r1.1 d.handle then r1
      else (r1.1 ++ [d], r1.2 ++ [EngineCmd.addL d.handle])
    (setLayerZ r2.1 d.handle (100 + (layers.length : Int) + 100), r2.2)

/-- The engine objects the registry wants on the map, with the visibility
and z-index values the reconciliation loop assigns. -/
def appObjs (layers : List MapLayer) : List EngineLayer :=
  layers.enum.map fun p =>
    { handle := p.2.olLayer, isBase := false, visible := p.2.visible
    , z := 100 + (p.1 : Int) }

/-! ## Helper lemmas about the reconciliation effect -/

lemma list_map_eq_self {α : Type} (f : α → α) :
    ∀ (st : List α), (∀ l ∈ st, f l = l) → st.map f = st := by
  intro st
  induction st with
  | nil => intro _; rfl
  | cons a t ih =>
    intro hh
    simp only [List.map_cons]
    rw [hh a (List.mem_cons_self a t), ih (fun l hl => hh l (List.mem_cons_of_mem a hl))]

lemma list_any_congr {α : Type} (p q : α → Bool) :
    ∀ (st : List α), (∀ l ∈ st, p l = q l) → st.any p = st.any q := by
  intro st
  induction st with
  | nil => intro _; rfl
  | cons a t ih =>
    intro hh
    simp only [List.any_cons]
    rw [hh a (List.mem_cons_self a t), ih (fun l hl => hh l (List.mem_cons_of_mem a hl))]

lemma setLayerProps_eq_of_forall_ne (st : List EngineLayer) (h : Nat) (v : Bool) (z : Int)
    (hh : ∀ l ∈ st, l.handle ≠ h) : setLayerProps st h v z = st := by
  unfold setLayerProps
  exact list_map_eq_self _ st (fun l hl => if_neg (hh l hl))

lemma setLayerZ_eq_of_forall_ne (st : List EngineLayer) (h : Nat) (z : Int)
    (hh : ∀ l ∈ st, l.handle ≠ h) : setLayerZ st h z = st := by
  unfold setLayerZ
  exact list_map_eq_self _ st (fun l hl => if_neg (hh l hl))

lemma setLayerZ_setLayerZ (st : List EngineLayer) (h : Nat) (z z' : Int) :
    setLayerZ (setLayerZ st h z) h z' = setLayerZ st h z' := by
  unfold setLayerZ
  rw [List.map_map]
  apply List.map_congr_left
  intro l _
  by_cases hl : l.handle = h <;> simp [hl]

lemma setLayerZ_handle_mem (st : List EngineLayer) (h : Nat) (z : Int) (l : EngineLayer)
    (hl : l ∈ setLayerZ st h z) : ∃ l0 ∈ st, l.handle = l0.handle ∧ l.isBase = l0.isBase ∧
      l.visible = l0.visible := by
  unfold setLayerZ at hl
  obtain ⟨l0, hl0, rfl⟩ := List.mem_map.mp hl
  refine ⟨l0, hl0, ?_⟩
  by_cases hc : l0.handle = h <;> simp [hc]

lemma containsHandle_of_mem (st : List EngineLayer) (l : EngineLayer) (hl : l ∈ st) :
    containsHandle st l.handle = true := by
  unfold containsHandle
  rw [List.any_eq_true]
  exact ⟨l, hl, by simp⟩

lemma containsHandle_eq_false (st : List EngineLayer) (h : Nat)
    (hh : ∀ l ∈ st, l.handle ≠ h) : containsHandle st h = false := by
  unfold containsHandle
  rw [List.any_eq_false]
  intro l hl
  simp [hh l hl]

lemma exists_of_containsHandle (st : List EngineLayer) (h : Nat)
    (hc : containsHandle st h = true) : ∃ l ∈ st, l.handle = h := by
  unfold containsHandle at hc
  rw [List.any_eq_true] at hc
  obtain ⟨l, hl, he⟩ := hc
  exact ⟨l, hl, by simpa using he⟩

lemma containsHandle_append_left (a b : List EngineLayer) (h : Nat)
    (hc : containsHandle a h = true) : containsHandle (a ++ b) h = true := by
  unfold containsHandle at hc ⊢
  rw [List.any_append, hc, Bool.true_or]

lemma containsHandle_setLayerZ (st : List EngineLayer) (h : Nat) (z : Int) (h' : Nat) :
    containsHandle (setLayerZ st h z) h' = containsHandle st h' := by
  unfold containsHandle setLayerZ
  rw [List.any_map]
  apply list_any_congr
  intro l _
  by_cases hc : l.handle = h <;> simp [hc, Function.comp]

lemma objForLayer_handle (removed : List EngineLayer) (ml : MapLayer) :
    (objForLayer removed ml).handle = ml.olLayer := by
  unfold objForLayer
  cases hfind : removed.find? (fun l => l.handle == ml.olLayer) with
  | none => rfl
  | some l => simpa using List.find?_some hfind

lemma objForLayer_isBase (removed : List EngineLayer)
    (hrem : ∀ l ∈ removed, l.isBase = false) (ml : MapLayer) :
    (objForLayer removed ml).isBase = false := by
  unfold objForLayer
  cases hfind : removed.find? (fun l => l.handle == ml.olLayer) with
  | none => rfl
  | some l => exact hrem l (List.mem_of_find?_eq_some hfind)

lemma objForLayer_set (removed : List EngineLayer)
    (hrem : ∀ l ∈ removed, l.isBase = false) (ml : MapLayer) (v : Bool) (z : Int) :
    { objForLayer removed ml with visible := v, z := z } =
      { handle := ml.olLayer, isBase := false, visible := v, z := z } := by
  have hh := objForLayer_handle removed ml
  have hb := objForLayer_isBase removed hrem ml
  cases hobj : objForLayer removed ml with
  | mk h0 b0 v0 z0 =>
    rw [hobj] at hh hb
    simp only at hh hb
    simp [hh, hb]

/-- The `layers.forEach` loop appends, to any base stack disjoint from the
registry handles, exactly one engine object per registry layer with the
registry visibility and `z = 100 + index`. -/
lemma foldl_syncStep_eq (removed : List EngineLayer)
    (hrem : ∀ l ∈ removed, l.isBase = false) :
    ∀ (elist : List (Nat × MapLayer)) (base : List EngineLayer) (cmds : List EngineCmd),
      (∀ p ∈ elist, ∀ l ∈ base, l.handle ≠ p.2.olLayer) →
      (elist.map (fun p => p.2.olLayer)).Nodup →
      (elist.foldl (syncStep removed) (base, cmds)).1 =
        base ++ elist.map (fun p =>
          { handle := p.2.olLayer, isBase := false, visible := p.2.visible
          , z := 100 + (p.1 : Int) }) := by
  intro elist
  induction elist with
  | nil => intro base cmds _ _; simp
  | cons p rest ih =>
    intro base cmds hdisj hnodup
    rw [List.foldl_cons]
    have hbase : containsHandle base p.2.olLayer = false :=
      containsHandle_eq_false base p.2.olLayer
        (fun l hl => hdisj p (List.mem_cons_self p rest) l hl)
    have hstep : syncStep removed (base, cmds) p =
        (base ++ [{ handle := p.2.olLayer, isBase := false, visible := p.2.visible
                  , z := 100 + (p.1 : Int) }], cmds ++ [EngineCmd.addL p.2.olLayer]) := by
      simp only [syncStep, hbase, Bool.false_eq_true, if_false]
      congr 1
      unfold setLayerProps
      rw [List.map_append]
      rw [list_map_eq_self _ base
        (fun l hl => if_neg (hdisj p (List.mem_cons_self p rest) l hl))]
      simp only [List.map_cons, List.map_nil]
      rw [if_pos (objForLayer_handle removed p.2)]
      rw [objForLayer_set removed hrem]
    rw [hstep]
    have hnodup' : (rest.map (fun p => p.2.olLayer)).Nodup := by
      simpa using hnodup.of_cons
    have hdisj' : ∀ q ∈ rest, ∀ l ∈
        base ++ [({ handle := p.2.olLayer, isBase := false, visible := p.2.visible
                  , z := 100 + (p.1 : Int) } : EngineLayer)], l.handle ≠ q.2.olLayer := by
      intro q hq l hl
      rcases List.mem_append.mp hl with hl | hl
      · exact hdisj q (List.mem_cons_of_mem p hq) l hl
      · rcases List.mem_singleton.mp hl with rfl
        simp only
        intro he
        have hmem : q.2.olLayer ∈ rest.map (fun p => p.2.olLayer) :=
          List.mem_map_of_mem _ hq
        rw [← he] at hmem
        simp only [List.nodup_cons, List.map_cons] at hnodup
        exact hnodup.1 hmem
    rw [ih _ _ hdisj' hnodup']
    simp [List.map_cons]

lemma setLayerZ_append (a b : List EngineLayer) (h : Nat) (z : Int) :
    setLayerZ (a ++ b) h z = setLayerZ a h z ++ setLayerZ b h z := by
  unfold setLayerZ
  exact List.map_append _ a b

lemma managedOf_isBase (drawing : Option EngineLayer) (stack : List EngineLayer) :
    ∀ l ∈ managedOf drawing stack, l.isBase = false := by
  intro l hl
  have h := (List.mem_filter.mp hl).2
  simp only [Bool.not_eq_eq_eq_not, Bool.not_true, isReservedL,
    Bool.or_eq_false_iff] at h
  exact h.1

lemma mem_of_mem_keptOf (drawing : Option EngineLayer) (stack : List EngineLayer)
    (l : EngineLayer) (hl : l ∈ keptOf drawing stack) :
    l ∈ stack ∧ isReservedL drawing l = true :=
  List.mem_filter.mp hl

lemma keptOf_append (drawing : Option EngineLayer) (a b : List EngineLayer) :
    keptOf drawing (a ++ b) = keptOf drawing a ++ keptOf drawing b := by
  unfold keptOf
  exact List.filter_append _ _

lemma keptOf_eq_self (drawing : Option EngineLayer) (st : List EngineLayer)
    (h : ∀ l ∈ st, isReservedL drawing l = true) : keptOf drawing st = st := by
  unfold keptOf
  exact List.filter_eq_self.mpr h

lemma keptOf_eq_nil (drawing : Option EngineLayer) (st : List EngineLayer)
    (h : ∀ l ∈ st, isReservedL drawing l = false) : keptOf drawing st = [] := by
  unfold keptOf
  exact List.filter_eq_nil_iff.mpr
    (fun a ha => by rw [h a ha]; exact Bool.false_ne_true)

/-- Steps (1)-(2) leave exactly the reserved layers (untouched) followed by
one engine object per registry layer carrying the registry visibility and
`z = 100 + index`. -/
lemma syncRun_fst (layers : List MapLayer) (drawing : Option EngineLayer)
    (stack : List EngineLayer)
    (h1 : (layers.map (fun ml => ml.olLayer)).Nodup)
    (h2 : ∀ l ∈ stack, isReservedL drawing l = true →
        ∀ ml ∈ layers, ml.olLayer ≠ l.handle) :
    (syncRun layers drawing stack).1 = keptOf drawing stack ++ appObjs layers := by
  unfold syncRun
  have hdisj : ∀ p ∈ layers.enum, ∀ l ∈ keptOf drawing stack, l.handle ≠ p.2.olLayer := by
    intro p hp l hl
    obtain ⟨hls, hres⟩ := mem_of_mem_keptOf drawing stack l hl
    exact (h2 l hls hres p.2 (List.snd_mem_of_mem_enum hp)).symm
  have hnodup : ((layers.enum).map (fun p => p.2.olLayer)).Nodup := by
    have he : (layers.enum).map (fun p => p.2.olLayer) =
        layers.map (fun ml => ml.olLayer) := by
      rw [show (fun (p : Nat × MapLayer) => p.2.olLayer) =
          (fun ml => ml.olLayer) ∘ Prod.snd from rfl]
      rw [← List.map_map, List.enum_map_snd]
    rw [he]
    exact h1
  exact foldl_syncStep_eq (managedOf drawing stack) (managedOf_isBase drawing stack)
    layers.enum (keptOf drawing stack) _ hdisj hnodup

/-- Handles of the re-synchronized registry objects avoid the drawing
layer's handle, given that the drawing layer is a reserved layer of the
stack. -/
lemma appObjs_handle_ne (layers : List MapLayer) (d : EngineLayer)
    (stack : List EngineLayer)
    (h2 : ∀ l ∈ stack, isReservedL (some d) l = true →
        ∀ ml ∈ layers, ml.olLayer ≠ l.handle)
    (h3 : containsHandle (keptOf (some d) stack) d.handle = true) :
    ∀ l ∈ appObjs layers, l.handle ≠ d.handle := by
  obtain ⟨lr, hlr, hlrh⟩ := exists_of_containsHandle _ _ h3
  obtain ⟨hlr_stack, hlr_res⟩ := mem_of_mem_keptOf _ _ lr hlr
  intro l hl
  obtain ⟨p, hp, rfl⟩ := List.mem_map.mp hl
  have hne := h2 lr hlr_stack hlr_res p.2 (List.snd_mem_of_mem_enum hp)
  rw [hlrh] at hne
  exact hne

lemma appObjs_not_reserved_none (layers : List MapLayer) :
    ∀ l ∈ appObjs layers, isReservedL none l = false := by
  intro l hl
  obtain ⟨p, hp, rfl⟩ := List.mem_map.mp hl
  rfl

lemma appObjs_not_reserved_some (layers : List MapLayer) (d : EngineLayer)
    (hne : ∀ l ∈ appObjs layers, l.handle ≠ d.handle) :
    ∀ l ∈ appObjs layers, isReservedL (some d) l = false := by
  intro l hl
  have hh := hne l hl
  obtain ⟨p, hp, rfl⟩ := List.mem_map.mp hl
  simp only [isReservedL, isDrawingOf, Bool.or_eq_false_iff]
  refine ⟨trivial, ?_⟩
  simp only at hh
  simpa using hh

/-- Characterization of a full reconcile run with no drawing layer ref:
the resulting stack is the base layers followed by the registry objects. -/
lemma reconcile_fst_none (layers : List MapLayer) (stack : List EngineLayer)
    (h1 : (layers.map (fun ml => ml.olLayer)).Nodup)
    (h2 : ∀ l ∈ stack, isReservedL none l = true →
        ∀ ml ∈ layers, ml.olLayer ≠ l.handle) :
    (reconcile layers none stack).1 = keptOf none stack ++ appObjs layers := by
  unfold reconcile
  exact syncRun_fst layers none stack h1 h2

/-- Characterization of a full reconcile run when the drawing layer ref is
set and the drawing layer is on the map: the resulting stack is the
reserved layers (with the drawing layer's z forced to
`100 + layers.length + 100`) followed by the registry objects. -/
lemma reconcile_fst_some (layers : List MapLayer) (d : EngineLayer)
    (stack : List EngineLayer)
    (h1 : (layers.map (fun ml => ml.olLayer)).Nodup)
    (h2 : ∀ l ∈ stack, isReservedL (some d) l = true →
        ∀ ml ∈ layers, ml.olLayer ≠ l.handle)
    (h3 : containsHandle (keptOf (some d) stack) d.handle = true) :
    (reconcile layers (some d) stack).1 =
      setLayerZ (keptOf (some d) stack) d.handle
        (100 + (layers.length : Int) + 100) ++ appObjs layers := by
  have hr1 := syncRun_fst layers (some d) stack h1 h2
  have hcont : containsHandle (syncRun layers (some d) stack).1 d.handle = true := by
    rw [hr1]
    exact containsHandle_append_left _ _ _ h3
  unfold reconcile
  simp only [hcont, if_true]
  rw [hr1, setLayerZ_append]
  rw [setLayerZ_eq_of_forall_ne _ _ _ (appObjs_handle_ne layers d stack h2 h3)]

/-- Re-reconciling the stack produced by a run is the identity on the
stack, when no drawing layer ref is set. -/
lemma reconcile_fixed_none (layers : List MapLayer) (stack : List EngineLayer)
    (h1 : (layers.map (fun ml => ml.olLayer)).Nodup)
    (h2 : ∀ l ∈ stack, isReservedL none l = true →
        ∀ ml ∈ layers, ml.olLayer ≠ l.handle) :
    (reconcile layers none (reconcile layers none stack).1).1 =
      (reconcile layers none stack).1 := by
  have hS := reconcile_fst_none layers stack h1 h2
  have hkept_res : ∀ l ∈ keptOf none stack, isReservedL none l = true :=
    fun l hl => (mem_of_mem_keptOf none stack l hl).2
  have hkeptS : keptOf none (keptOf none stack ++ appObjs layers) = keptOf none stack := by
    rw [keptOf_append, keptOf_eq_self _ _ hkept_res,
      keptOf_eq_nil _ _ (appObjs_not_reserved_none layers), List.append_nil]
  have h2' : ∀ l ∈ keptOf none stack ++ appObjs layers, isReservedL none l = true →
      ∀ ml ∈ layers, ml.olLayer ≠ l.handle := by
    intro l hl hres ml hml
    rcases List.mem_append.mp hl with hl | hl
    · exact h2 l (mem_of_mem_keptOf none stack l hl).1 hres ml hml
    · rw [appObjs_not_reserved_none layers l hl] at hres
      cases hres
  rw [hS, reconcile_fst_none layers _ h1 h2', hkeptS]

/-- Re-reconciling the stack produced by a run is the identity on the
stack, when the drawing layer ref is set and on the map. -/
lemma reconcile_fixed_some (layers : List MapLayer) (d : EngineLayer)
    (stack : List EngineLayer)
    (h1 : (layers.map (fun ml => ml.olLayer)).Nodup)
    (h2 : ∀ l ∈ stack, isReservedL (some d) l = true →
        ∀ ml ∈ layers, ml.olLayer ≠ l.handle)
    (h3 : containsHandle (keptOf (some d) stack) d.handle = true) :
    (reconcile layers (some d) (reconcile layers (some d) stack).1).1 =
      (reconcile layers (some d) stack).1 := by
  have hS := reconcile_fst_some layers d stack h1 h2 h3
  have happ_ne := appObjs_handle_ne layers d stack h2 h3
  have happ_nr := appObjs_not_reserved_some layers d happ_ne
  have hkz_res : ∀ l ∈ setLayerZ (keptOf (some d) stack) d.handle
      (100 + (layers.length : Int) + 100), isReservedL (some d) l = true := by
    intro l hl
    obtain ⟨l0, hl0, hh, hb, _⟩ := setLayerZ_handle_mem _ _ _ l hl
    have hres := (mem_of_mem_keptOf _ _ l0 hl0).2
    unfold isReservedL isDrawingOf at hres ⊢
    rw [hh, hb]
    exact hres
  have hkeptS : keptOf (some d)
      (setLayerZ (keptOf (some d) stack) d.handle (100 + (layers.length : Int) + 100) ++
        appObjs layers) =
      setLayerZ (keptOf (some d) stack) d.handle (100 + (layers.length : Int) + 100) := by
    rw [keptOf_append, keptOf_eq_self _ _ hkz_res, keptOf_eq_nil _ _ happ_nr,
      List.append_nil]
  have h2' : ∀ l ∈ setLayerZ (keptOf (some d) stack) d.handle
      (100 + (layers.length : Int) + 100) ++ appObjs layers,
      isReservedL (some d) l = true → ∀ ml ∈ layers, ml.olLayer ≠ l.handle := by
    intro l hl hres ml hml
    rcases List.mem_append.mp hl with hl | hl
    · obtain ⟨l0, hl0, hh, _, _⟩ := setLayerZ_handle_mem _ _ _ l hl
      rw [hh]
      exact h2 l0 (mem_of_mem_keptOf _ _ l0 hl0).1 (mem_of_mem_keptOf _ _ l0 hl0).2 ml hml
    · rw [happ_nr l hl] at hres
      cases hres
  have h3' : containsHandle (keptOf (some d)
      (setLayerZ (keptOf (some d) stack) d.handle (100 + (layers.length : Int) + 100) ++
        appObjs layers)) d.handle = true := by
    rw [hkeptS, containsHandle_setLayerZ]
    exact h3
  rw [hS, reconcile_fst_some layers d _ h1 h2' h3', hkeptS, setLayerZ_setLayerZ]

/-! ## Helper lemmas about the fetch pipeline -/

lemma fetchTry_nonfinite (g : Geometry) (ids : List String)
    (tf : ℚ → ℚ → ℚ → ℚ → JsExtent) (tp : String → TransportResult) (now : Nat)
    (hfe : finites g.extent = none) :
    fetchTry g ids tf tp now = ([], [], .error .invalidExtent) := by
  simp [fetchTry, hfe]

lemma fetchTry_degenerate (g : Geometry) (ids : List String)
    (tf : ℚ → ℚ → ℚ → ℚ → JsExtent) (tp : String → TransportResult) (now : Nat)
    (x0 y0 x1 y1 : ℚ) (hfe : finites g.extent = some (x0, y0, x1, y1))
    (hdeg : (x1 - x0 ≤ 0 ∧ x1 ≠ x0) ∨ (y1 - y0 ≤ 0 ∧ y1 ≠ y0)) :
    fetchTry g ids tf tp now = ([], [], .error .invalidExtent) := by
  simp only [fetchTry, hfe]
  rw [if_pos hdeg]

lemma fetchTry_transform_nonfinite (g : Geometry) (ids : List String)
    (tf : ℚ → ℚ → ℚ → ℚ → JsExtent) (tp : String → TransportResult) (now : Nat)
    (x0 y0 x1 y1 : ℚ) (hfe : finites g.extent = some (x0, y0, x1, y1))
    (hdeg : ¬ ((x1 - x0 ≤ 0 ∧ x1 ≠ x0) ∨ (y1 - y0 ≤ 0 ∧ y1 ≠ y0)))
    (hft : finites (tf x0 y0 x1 y1) = none) :
    fetchTry g ids tf tp now = ([], [], .error .transformFailed) := by
  simp only [fetchTry, hfe]
  rw [if_neg hdeg]
  simp only [hft]

lemma fetchTry_bboxNS (g : Geometry) (ids : List String)
    (tf : ℚ → ℚ → ℚ → ℚ → JsExtent) (tp : String → TransportResult) (now : Nat)
    (x0 y0 x1 y1 tx0 ty0 tx1 ty1 : ℚ)
    (hfe : finites g.extent = some (x0, y0, x1, y1))
    (hdeg : ¬ ((x1 - x0 ≤ 0 ∧ x1 ≠ x0) ∨ (y1 - y0 ≤ 0 ∧ y1 ≠ y0)))
    (hft : finites (tf x0 y0 x1 y1) = some (tx0, ty0, tx1, ty1))
    (hns : toFixed6 ty1 < toFixed6 ty0) :
    fetchTry g ids tf tp now = ([], [], .error .bboxNS) := by
  simp only [fetchTry, hfe]
  rw [if_neg hdeg]
  simp only [hft]
  rw [if_pos hns]

lemma fetchTry_bboxEW (g : Geometry) (ids : List String)
    (tf : ℚ → ℚ → ℚ → ℚ → JsExtent) (tp : String → TransportResult) (now : Nat)
    (x0 y0 x1 y1 tx0 ty0 tx1 ty1 : ℚ)
    (hfe : finites g.extent = some (x0, y0, x1, y1))
    (hdeg : ¬ ((x1 - x0 ≤ 0 ∧ x1 ≠ x0) ∨ (y1 - y0 ≤ 0 ∧ y1 ≠ y0)))
    (hft : finites (tf x0 y0 x1 y1) = some (tx0, ty0, tx1, ty1))
    (hns : ¬ toFixed6 ty1 < toFixed6 ty0)
    (hew : toFixed6 tx1 < toFixed6 tx0 ∧ |toFixed6 tx1 - toFixed6 tx0| < 180) :
    fetchTry g ids tf tp now = ([], [], .error .bboxEW) := by
  simp only [fetchTry, hfe]
  rw [if_neg hdeg]
  simp only [hft]
  rw [if_neg hns, if_pos hew]

/-- The query string built by a validated run. -/
def overpassQueryFor (ids : List String) (bboxStr : String) : String :=
  mkOverpassQuery ((osmCategoryConfig.filter (fun cat => ids.contains cat.id)).map
    (fun cat => cat.overpassQueryFragment bboxStr))

lemma fetchTry_proceed (g : Geometry) (ids : List String)
    (tf : ℚ → ℚ → ℚ → ℚ → JsExtent) (tp : String → TransportResult) (now : Nat)
    (x0 y0 x1 y1 tx0 ty0 tx1 ty1 : ℚ)
    (hfe : finites g.extent = some (x0, y0, x1, y1))
    (hdeg : ¬ ((x1 - x0 ≤ 0 ∧ x1 ≠ x0) ∨ (y1 - y0 ≤ 0 ∧ y1 ≠ y0)))
    (hft : finites (tf x0 y0 x1 y1) = some (tx0, ty0, tx1, ty1))
    (hns : ¬ toFixed6 ty1 < toFixed6 ty0)
    (hew : ¬ (toFixed6 tx1 < toFixed6 tx0 ∧ |toFixed6 tx1 - toFixed6 tx0| < 180)) :
    fetchTry g ids tf tp now =
      (let q := overpassQueryFor ids
        (bboxString (toFixed6 ty0) (toFixed6 tx0) (toFixed6 ty1) (toFixed6 tx1))
       let cats := osmCategoryConfig.filter (fun cat => ids.contains cat.id)
       if ¬ (tp q).ok then
         ([q], [], .error (.serviceError (tp q).status (tp q).statusText))
       else
         ([q], (classifyAll cats (tp q).features now).1,
           .ok (classifyAll cats (tp q).features now).2)) := by
  simp only [fetchTry, hfe]
  rw [if_neg hdeg]
  simp only [hft]
  rw [if_neg hns, if_neg hew]
  rfl

/-- Every run issues zero requests or exactly one request carrying the
concatenation of the selected categories' query fragments at one bbox. -/
lemma fetchTry_requests_shape (g : Geometry) (ids : List String)
    (tf : ℚ → ℚ → ℚ → ℚ → JsExtent) (tp : String → TransportResult) (now : Nat) :
    (fetchTry g ids tf tp now).1 = [] ∨
    ∃ bboxStr, (fetchTry g ids tf tp now).1 = [overpassQueryFor ids bboxStr] := by
  cases hfe : finites g.extent with
  | none => rw [fetchTry_nonfinite g ids tf tp now hfe]; exact Or.inl rfl
  | some q =>
    obtain ⟨x0, y0, x1, y1⟩ := q
    by_cases hdeg : (x1 - x0 ≤ 0 ∧ x1 ≠ x0) ∨ (y1 - y0 ≤ 0 ∧ y1 ≠ y0)
    · rw [fetchTry_degenerate g ids tf tp now x0 y0 x1 y1 hfe hdeg]; exact Or.inl rfl
    · cases hft : finites (tf x0 y0 x1 y1) with
      | none =>
        rw [fetchTry_transform_nonfinite g ids tf tp now x0 y0 x1 y1 hfe hdeg hft]
        exact Or.inl rfl
      | some t =>
        obtain ⟨tx0, ty0, tx1, ty1⟩ := t
        by_cases hns : toFixed6 ty1 < toFixed6 ty0
        · rw [fetchTry_bboxNS g ids tf tp now x0 y0 x1 y1 tx0 ty0 tx1 ty1 hfe hdeg hft hns]
          exact Or.inl rfl
        · by_cases hew : toFixed6 tx1 < toFixed6 tx0 ∧ |toFixed6 tx1 - toFixed6 tx0| < 180
          · rw [fetchTry_bboxEW g ids tf tp now x0 y0 x1 y1 tx0 ty0 tx1 ty1 hfe hdeg hft
              hns hew]
            exact Or.inl rfl
          · rw [fetchTry_proceed g ids tf tp now x0 y0 x1 y1 tx0 ty0 tx1 ty1 hfe hdeg hft
              hns hew]
            refine Or.inr ⟨bboxString (toFixed6 ty0) (toFixed6 tx0) (toFixed6 ty1)
              (toFixed6 tx1), ?_⟩
            by_cases hok : (tp (overpassQueryFor ids (bboxString (toFixed6 ty0) (toFixed6 tx0)
                (toFixed6 ty1) (toFixed6 tx1)))).ok <;> simp [hok]

/-- The `fetchCore` guards in source order, fully unfolded for a run that
reaches the try block. -/
lemma fetchCore_run (fetching0 : Bool) (lf : DrawnFeature) (ids : List String)
    (tf : ℚ → ℚ → ℚ → ℚ → JsExtent) (tp : String → TransportResult) (now : Nat)
    (g : Geometry) (hids : ids.length ≠ 0) (hg : lf.geometry = some g)
    (hpoly : g.geomType = GeomType.polygon) :
    fetchCore fetching0 lf ids tf tp now =
      (match (fetchTry g ids tf tp now).2.2 with
       | .ok count =>
         { outcome := if count > 0 then .loaded count else .noData
         , requests := (fetchTry g ids tf tp now).1
         , addedLayers := (fetchTry g ids tf tp now).2.1, isFetching := false }
       | .error e =>
         { outcome := .errorCaught e, requests := (fetchTry g ids tf tp now).1
         , addedLayers := (fetchTry g ids tf tp now).2.1, isFetching := false }) := by
  simp only [fetchCore, hids, hg, hpoly, if_false, ite_not, ne_eq, not_true_eq_false]

lemma fetchCore_noCategories (fetching0 : Bool) (lf : DrawnFeature)
    (tf : ℚ → ℚ → ℚ → ℚ → JsExtent) (tp : String → TransportResult) (now : Nat) :
    fetchCore fetching0 lf [] tf tp now =
      { outcome := .noCategories, requests := [], addedLayers := []
      , isFetching := fetching0 } := by
  rfl

lemma fetchCore_requests_shape (fetching0 : Bool) (lf : DrawnFeature) (ids : List String)
    (tf : ℚ → ℚ → ℚ → ℚ → JsExtent) (tp : String → TransportResult) (now : Nat) :
    (fetchCore fetching0 lf ids tf tp now).requests = [] ∨
    ∃ g, (fetchCore fetching0 lf ids tf tp now).requests = (fetchTry g ids tf tp now).1 := by
  by_cases hids : ids.length = 0
  · unfold fetchCore
    rw [if_pos hids]
    exact Or.inl rfl
  · cases hg : lf.geometry with
    | none => unfold fetchCore; rw [if_neg hids, hg]; exact Or.inl rfl
    | some g =>
      by_cases hpoly : g.geomType = GeomType.polygon
      · rw [fetchCore_run fetching0 lf ids tf tp now g hids hg hpoly]
        refine Or.inr ⟨g, ?_⟩
        cases hres : (fetchTry g ids tf tp now).2.2 <;> simp [hres]
      · unfold fetchCore
        rw [if_neg hids, hg]
        simp only [ne_eq]
        rw [if_pos (by simpa using hpoly)]
        exact Or.inl rfl

/-- `fetchOSMData` on a non-empty drawing source with last feature `f`. -/
lemma fetchOSMData_concat (fetching0 : Bool) (xs : List DrawnFeature) (f : DrawnFeature)
    (ids : List String) (tf : ℚ → ℚ → ℚ → ℚ → JsExtent)
    (tp : String → TransportResult) (now : Nat) :
    fetchOSMData fetching0 (some (xs ++ [f])) ids tf tp now =
      { outcome := (fetchCore fetching0 f ids tf tp now).outcome
      , requests := (fetchCore fetching0 f ids tf tp now).requests
      , addedLayers := (fetchCore fetching0 f ids tf tp now).addedLayers
      , isFetchingFinal := (fetchCore fetching0 f ids tf tp now).isFetching
      , drawingSourceAfter := some (xs ++ [f]) } := by
  simp only [fetchOSMData, List.getLast?_concat]

lemma classifyStep_eq (features : List GeoFeature) (now : Nat)
    (acc : List OSMLayer × Nat) (cat : OSMCategoryConfig) :
    classifyStep features now acc cat =
      if 0 < (features.filter (fun f => cat.matcher f.properties)).length then
        (acc.1 ++ [{ id := "osm-" ++ cat.id ++ "-" ++ toString now
                   , name := cat.name ++ " (" ++
                       toString (features.filter (fun f => cat.matcher f.properties)).length
                       ++ ")"
                   , features := features.filter (fun f => cat.matcher f.properties)
                   , style := cat.style, visible := true }],
         acc.2 + (features.filter (fun f => cat.matcher f.properties)).length)
      else acc := by
  by_cases h : 0 < (features.filter (fun f => cat.matcher f.properties)).length <;>
    simp [classifyStep, h]

/-- Invariant of the classification loop: produced layers are either
inherited from the accumulator or non-empty, and the running count adds the
per-category match counts. -/
lemma classify_foldl (features : List GeoFeature) (now : Nat) :
    ∀ (cats : List OSMCategoryConfig) (acc : List OSMLayer × Nat),
      (∀ l ∈ (cats.foldl (classifyStep features now) acc).1,
        l ∈ acc.1 ∨ l.features ≠ []) ∧
      (cats.foldl (classifyStep features now) acc).2 =
        acc.2 + (cats.map (fun cat =>
          (features.filter (fun f => cat.matcher f.properties)).length)).sum := by
  intro cats
  induction cats with
  | nil => intro acc; exact ⟨fun l hl => Or.inl hl, by simp⟩
  | cons cat rest ih =>
    intro acc
    rw [List.foldl_cons]
    constructor
    · intro l hl
      rcases (ih (classifyStep features now acc cat)).1 l hl with hmem | hne
      · rw [classifyStep_eq] at hmem
        by_cases h : 0 < (features.filter (fun f => cat.matcher f.properties)).length
        · rw [if_pos h] at hmem
          rcases List.mem_append.mp hmem with h1 | h1
          · exact Or.inl h1
          · rcases List.mem_singleton.mp h1 with rfl
            refine Or.inr ?_
            simp only
            intro hnil
            rw [hnil] at h
            simp at h
        · rw [if_neg h] at hmem
          exact Or.inl hmem
      · exact Or.inr hne
    · rw [(ih (classifyStep features now acc cat)).2, classifyStep_eq]
      by_cases h : 0 < (features.filter (fun f => cat.matcher f.properties)).length
      · rw [if_pos h]
        simp only [List.map_cons, List.sum_cons]
        omega
      · rw [if_neg h]
        have hlen : (features.filter (fun f => cat.matcher f.properties)).length = 0 := by
          omega
        simp [List.map_cons, List.sum_cons, hlen]

/-! ## Concrete sample data used by scenario theorems and witnesses -/

/-- The polygon geometry of the §8 scenario: planar extent
`[-59, -37, -58, -36]`. -/
def scenarioGeometry : Geometry :=
  { geomType := GeomType.polygon
  , extent := ⟨some (-59), some (-37), some (-58), some (-36)⟩ }

/-- A drawn polygon with planar extent `[-59, -37, -58, -36]`. -/
def samplePolygon : DrawnFeature :=
  { geometry := some scenarioGeometry }

/-- A drawn line feature (for the non-polygon guard). -/
def sampleLine : DrawnFeature :=
  { geometry := some { geomType := GeomType.lineString
                     , extent := ⟨some 0, some 0, some 1, some 1⟩ } }

/-- A concrete trusted-transform oracle mapping the planar extent to a
small valid geographic box near the origin. -/
def sampleTransform : ℚ → ℚ → ℚ → ℚ → JsExtent := fun _ _ _ _ =>
  ⟨some (-53/100000), some (-333/1000000), some (-521/1000000), some (-324/1000000)⟩

/-- A service payload holding 3 features matching `roads_paths` and 2
features matching no selected category. -/
def sampleRoadFeatures : List GeoFeature :=
  [ ⟨some [("highway", "primary")]⟩
  , ⟨some [("highway", "residential")]⟩
  , ⟨some [("highway", "path")]⟩
  , ⟨some [("natural", "scrub")]⟩
  , ⟨some [("building", "yes")]⟩ ]

/-- A concrete transport oracle answering ok with `sampleRoadFeatures`. -/
def sampleTransport : String → TransportResult := fun _ =>
  { ok := true, status := 200, statusText := "OK", features := sampleRoadFeatures }

/-- The §8 scenario run (parameterized by the timestamp). -/
def scenarioRunAt (now : Nat) : FetchResult :=
  fetchOSMData false (some [samplePolygon]) ["roads_paths"] sampleTransform
    sampleTransport now

/-- A one-entry registry for reconciliation examples. -/
def sampleRegistry : List MapLayer :=
  [{ id := "osm-roads_paths-42", name := "OSM Rutas y Caminos (3)", olLayer := 5
   , visible := true }]

/-- The scratch drawing layer object for reconciliation examples. -/
def sampleDrawingLayer : EngineLayer :=
  { handle := 2, isBase := false, visible := true, z := 1000 }

/-- An engine stack holding one base layer and the drawing layer. -/
def sampleStack : List EngineLayer :=
  [ { handle := 1, isBase := true, visible := true, z := 0 }, sampleDrawingLayer ]

/-! ## Claim theorems -/

/-- C1 counterexample: with an unchanged one-layer registry, the second
reconcile run still performs engine mutations — it re-removes (and
re-adds) the managed layer with handle 5, because the effect removes every
non-reserved layer on every run.  So "no additional engine mutations
(no layer removals, additions, ...)" is false as stated. -/
theorem c1_counterexample_second_run_removes :
    EngineCmd.removeL 5 ∈
      (reconcile sampleRegistry (some sampleDrawingLayer)
        (reconcile sampleRegistry (some sampleDrawingLayer) sampleStack).1).2 ∧
    EngineCmd.addL 5 ∈
      (reconcile sampleRegistry (some sampleDrawingLayer)
        (reconcile sampleRegistry (some sampleDrawingLayer) sampleStack).1).2 := by
  decide

/-- C1 (amended): reconciliation is idempotent at the engine-state level:
whenever registry renderable handles are pairwise distinct, no registry
handle collides with a reserved (base or drawing) layer, and the drawing
layer ref (when set) is already on the map, running the effect a second
time with an unchanged registry leaves the engine layer stack exactly
unchanged — though the second run still re-issues remove/add operations
for every managed layer. -/
theorem c1_amended_reconcile_idempotent (layers : List MapLayer)
    (drawing : Option EngineLayer) (stack : List EngineLayer)
    (h1 : (layers.map (fun ml => ml.olLayer)).Nodup)
    (h2 : ∀ l ∈ stack, isReservedL drawing l = true →
        ∀ ml ∈ layers, ml.olLayer ≠ l.handle)
    (h3 : ∀ d, drawing = some d → containsHandle (keptOf drawing stack) d.handle = true) :
    (reconcile layers drawing (reconcile layers drawing stack).1).1 =
      (reconcile layers drawing stack).1 := by
  cases drawing with
  | none => exact reconcile_fixed_none layers stack h1 h2
  | some d => exact reconcile_fixed_some layers d stack h1 h2 (h3 d rfl)

/-- C1 witness: the amended idempotence at the concrete sample inputs. -/
theorem c1_amended_reconcile_idempotent_witness :
    (reconcile sampleRegistry (some sampleDrawingLayer)
      (reconcile sampleRegistry (some sampleDrawingLayer) sampleStack).1).1 =
      (reconcile sampleRegistry (some sampleDrawingLayer) sampleStack).1 :=
  c1_amended_reconcile_idempotent sampleRegistry (some sampleDrawingLayer) sampleStack
    (by decide) (by decide) (fun d hd => by cases hd; decide)

/-- C8: reserved engine layers are preserved by every reconciliation run:
no base layer or drawing layer is removed, their visibility is unchanged,
and the drawing layer's z-index (`100 + layers.length + 100`) is strictly
above every managed (registry) layer's z-index (`100 + i`).  Hypotheses:
registry handles are pairwise distinct, don't collide with reserved
handles, and the drawing layer is on the map. -/
theorem c8_reconcile_preserves_reserved (layers : List MapLayer) (d : EngineLayer)
    (stack : List EngineLayer)
    (h1 : (layers.map (fun ml => ml.olLayer)).Nodup)
    (h2 : ∀ l ∈ stack, isReservedL (some d) l = true →
        ∀ ml ∈ layers, ml.olLayer ≠ l.handle)
    (h3 : containsHandle (keptOf (some d) stack) d.handle = true) :
    (∀ l ∈ stack, isReservedL (some d) l = true →
       ∃ l' ∈ (reconcile layers (some d) stack).1,
         l'.handle = l.handle ∧ l'.visible = l.visible ∧ l'.isBase = l.isBase) ∧
    (∀ l' ∈ (reconcile layers (some d) stack).1, l'.handle = d.handle →
       l'.z = 100 + (layers.length : Int) + 100) ∧
    (∀ l' ∈ (reconcile layers (some d) stack).1,
       l'.handle ∈ layers.map (fun ml => ml.olLayer) →
       l'.z < 100 + (layers.length : Int) + 100) := by
  have hS := reconcile_fst_some layers d stack h1 h2 h3
  have happ_ne := appObjs_handle_ne layers d stack h2 h3
  rw [hS]
  refine ⟨?_, ?_, ?_⟩
  · intro l hl hres
    have hk : l ∈ keptOf (some d) stack := List.mem_filter.mpr ⟨hl, hres⟩
    refine ⟨if l.handle = d.handle then
        { l with z := 100 + (layers.length : Int) + 100 } else l, ?_, ?_⟩
    · apply List.mem_append_left
      unfold setLayerZ
      exact List.mem_map_of_mem _ hk
    · by_cases hc : l.handle = d.handle <;> simp [hc]
  · intro l' hl' hh
    rcases List.mem_append.mp hl' with hl' | hl'
    · unfold setLayerZ at hl'
      obtain ⟨l0, hl0, rfl⟩ := List.mem_map.mp hl'
      by_cases hc : l0.handle = d.handle
      · simp [hc]
      · rw [if_neg hc] at hh
        exact absurd hh hc
    · exact absurd hh (happ_ne l' hl')
  · intro l' hl' hmem
    rcases List.mem_append.mp hl' with hl' | hl'
    · exfalso
      unfold setLayerZ at hl'
      obtain ⟨l0, hl0, rfl⟩ := List.mem_map.mp hl'
      obtain ⟨hls, hres⟩ := mem_of_mem_keptOf _ _ l0 hl0
      obtain ⟨ml, hml, hmla⟩ := List.mem_map.mp hmem
      apply h2 l0 hls hres ml hml
      rw [hmla]
      by_cases hc : l0.handle = d.handle <;> simp [hc]
    · unfold appObjs at hl'
      obtain ⟨p, hp, rfl⟩ := List.mem_map.mp hl'
      simp only
      have hlt : p.1 < layers.length := List.fst_lt_of_mem_enum hp
      omega

/-- C8 witness: the preservation statement at the concrete sample inputs. -/
theorem c8_reconcile_preserves_reserved_witness :
    (∀ l ∈ sampleStack, isReservedL (some sampleDrawingLayer) l = true →
       ∃ l' ∈ (reconcile sampleRegistry (some sampleDrawingLayer) sampleStack).1,
         l'.handle = l.handle ∧ l'.visible = l.visible ∧ l'.isBase = l.isBase) ∧
    (∀ l' ∈ (reconcile sampleRegistry (some sampleDrawingLayer) sampleStack).1,
       l'.handle = sampleDrawingLayer.handle →
       l'.z = 100 + (sampleRegistry.length : Int) + 100) ∧
    (∀ l' ∈ (reconcile sampleRegistry (some sampleDrawingLayer) sampleStack).1,
       l'.handle ∈ sampleRegistry.map (fun ml => ml.olLayer) →
       l'.z < 100 + (sampleRegistry.length : Int) + 100) :=
  c8_reconcile_preserves_reserved sampleRegistry sampleDrawingLayer sampleStack
    (by decide) (by decide) (by decide)

/-- C4 counterexample: removing an id not present in the registry reports
the same success toast "Capa Eliminada" that a successful removal reports
— there is no NotFound condition — while the registry is left unchanged.
So "reports a NotFound condition to the caller" is false as stated. -/
theorem c4_counterexample_remove_unknown_reports_success :
    (removeLayer sampleRegistry "missing-id").2 = "Capa Eliminada" ∧
    (removeLayer sampleRegistry "osm-roads_paths-42").2 = "Capa Eliminada" ∧
    (removeLayer sampleRegistry "missing-id").1 = sampleRegistry := by
  refine ⟨rfl, rfl, ?_⟩
  decide

/-- C4 (amended): removing a layer id not present in the registry leaves
the registry contents unchanged and (after the reconcile that follows the
registry write) the engine stack unchanged, but it reports the generic
success toast "Capa Eliminada", not a NotFound condition. -/
theorem c4_amended_remove_unknown_id (layers : List MapLayer) (layerId : String)
    (drawing : Option EngineLayer) (stack : List EngineLayer)
    (hid : ∀ l ∈ layers, l.id ≠ layerId)
    (h1 : (layers.map (fun ml => ml.olLayer)).Nodup)
    (h2 : ∀ l ∈ stack, isReservedL drawing l = true →
        ∀ ml ∈ layers, ml.olLayer ≠ l.handle)
    (h3 : ∀ d, drawing = some d → containsHandle (keptOf drawing stack) d.handle = true) :
    (removeLayer layers layerId).1 = layers ∧
    (removeLayer layers layerId).2 = "Capa Eliminada" ∧
    (reconcile (removeLayer layers layerId).1 drawing
        (reconcile layers drawing stack).1).1 =
      (reconcile layers drawing stack).1 := by
  have hreg : (removeLayer layers layerId).1 = layers := by
    unfold removeLayer
    simp only
    exact List.filter_eq_self.mpr (fun l hl => by simp [hid l hl])
  refine ⟨hreg, rfl, ?_⟩
  rw [hreg]
  cases drawing with
  | none => exact reconcile_fixed_none layers stack h1 h2
  | some d => exact reconcile_fixed_some layers d stack h1 h2 (h3 d rfl)

/-- C4 witness: the amended statement at the concrete sample inputs. -/
theorem c4_amended_remove_unknown_id_witness :
    (removeLayer sampleRegistry "missing-id").1 = sampleRegistry ∧
    (removeLayer sampleRegistry "missing-id").2 = "Capa Eliminada" ∧
    (reconcile (removeLayer sampleRegistry "missing-id").1 (some sampleDrawingLayer)
        (reconcile sampleRegistry (some sampleDrawingLayer) sampleStack).1).1 =
      (reconcile sampleRegistry (some sampleDrawingLayer) sampleStack).1 :=
  c4_amended_remove_unknown_id sampleRegistry "missing-id" (some sampleDrawingLayer)
    sampleStack (by decide) (by decide) (by decide) (fun d hd => by cases hd; decide)

/-- C2 counterexample: a successful Query Run (3 features loaded) leaves
its originating drawn feature in the scratch drawing source — the
finally-equivalent cleanup of this version of `fetchOSMData` resets only
the fetching flag, it does not remove the drawn feature. -/
theorem c2_counterexample_drawn_feature_not_removed :
    (scenarioRunAt 42).outcome = RunOutcome.loaded 3 ∧
    (scenarioRunAt 42).isFetchingFinal = false ∧
    (scenarioRunAt 42).drawingSourceAfter = some [samplePolygon] := by
  with_unfolding_all decide

/-- C2 (amended): for every Query Run that enters the try block, the
finally-equivalent cleanup resets the fetching flag to false whatever the
outcome, but it does not remove the originating drawn feature: the scratch
drawing source is unchanged on every path. -/
theorem c2_amended_cleanup (fetching0 : Bool) (xs : List DrawnFeature) (f : DrawnFeature)
    (ids : List String) (tf : ℚ → ℚ → ℚ → ℚ → JsExtent)
    (tp : String → TransportResult) (now : Nat)
    (g : Geometry) (hids : ids.length ≠ 0) (hg : f.geometry = some g)
    (hpoly : g.geomType = GeomType.polygon) :
    (fetchOSMData fetching0 (some (xs ++ [f])) ids tf tp now).isFetchingFinal = false ∧
    (fetchOSMData fetching0 (some (xs ++ [f])) ids tf tp now).drawingSourceAfter =
      some (xs ++ [f]) := by
  rw [fetchOSMData_concat]
  refine ⟨?_, rfl⟩
  show (fetchCore fetching0 f ids tf tp now).isFetching = false
  rw [fetchCore_run fetching0 f ids tf tp now g hids hg hpoly]
  cases hres : (fetchTry g ids tf tp now).2.2 <;> simp [hres]

/-- C2 witness: the amended cleanup statement at the concrete scenario. -/
theorem c2_amended_cleanup_witness :
    (fetchOSMData false (some ([] ++ [samplePolygon])) ["roads_paths"] sampleTransform
      sampleTransport 42).isFetchingFinal = false ∧
    (fetchOSMData false (some ([] ++ [samplePolygon])) ["roads_paths"] sampleTransform
      sampleTransport 42).drawingSourceAfter = some ([] ++ [samplePolygon]) :=
  c2_amended_cleanup false [] samplePolygon ["roads_paths"] sampleTransform
    sampleTransport 42 scenarioGeometry (by decide) rfl rfl

/-- A feature tagged both `waterway=river` and `highway=primary`. -/
def overlapFeature : GeoFeature := ⟨some [("waterway", "river"), ("highway", "primary")]⟩

/-- The category table restricted to `watercourses` and `roads_paths`. -/
def overlapCats : List OSMCategoryConfig :=
  osmCategoryConfig.filter (fun cat =>
    (["watercourses", "roads_paths"] : List String).contains cat.id)

/-- C3 counterexample: one feature matches both selected categories'
predicates; the aggregated reported count is 2, while only 1 normalized
feature matches at least one selected predicate — so "the aggregated
feature count equals the number of features matching at least one selected
category's predicate" is false as stated. -/
theorem c3_counterexample_double_count :
    (classifyAll overlapCats [overlapFeature] 7).2 = 2 ∧
    ([overlapFeature].filter (fun f =>
      overlapCats.any (fun cat => cat.matcher f.properties))).length = 1 := by
  decide

/-- C3 (amended): classification never produces a zero-feature layer, and
the aggregated count equals the sum over the selected categories of the
number of features matching that category's predicate — a feature matching
several selected predicates is counted once per matching category; features
matching no selected predicate are dropped. -/
theorem c3_amended_classify (selectedIds : List String) (features : List GeoFeature)
    (now : Nat) :
    (∀ l ∈ (classifyAll (osmCategoryConfig.filter (fun cat => selectedIds.contains cat.id))
        features now).1, l.features ≠ []) ∧
    (classifyAll (osmCategoryConfig.filter (fun cat => selectedIds.contains cat.id))
        features now).2 =
      ((osmCategoryConfig.filter (fun cat => selectedIds.contains cat.id)).map (fun cat =>
        (features.filter (fun f => cat.matcher f.properties)).length)).sum := by
  unfold classifyAll
  have h := classify_foldl features now
    (osmCategoryConfig.filter (fun cat => selectedIds.contains cat.id)) ([], 0)
  constructor
  · intro l hl
    rcases h.1 l hl with h0 | hne
    · exact absurd h0 (List.not_mem_nil l)
    · exact hne
  · simpa using h.2

/-- C3 witness: the amended classification statement at the concrete
overlap payload. -/
theorem c3_amended_classify_witness :
    (∀ l ∈ (classifyAll (osmCategoryConfig.filter (fun cat =>
        (["watercourses", "roads_paths"] : List String).contains cat.id))
        [overlapFeature] 7).1, l.features ≠ []) ∧
    (classifyAll (osmCategoryConfig.filter (fun cat =>
        (["watercourses", "roads_paths"] : List String).contains cat.id))
        [overlapFeature] 7).2 =
      ((osmCategoryConfig.filter (fun cat =>
        (["watercourses", "roads_paths"] : List String).contains cat.id)).map (fun cat =>
        ([overlapFeature].filter (fun f => cat.matcher f.properties)).length)).sum :=
  c3_amended_classify ["watercourses", "roads_paths"] [overlapFeature] 7

/-- C5: for every finite planar extent with positive width and height whose
corner transform yields finite geographic coordinates, either the run
proceeds and the single issued request carries the bbox of 6-decimal-rounded
coordinates satisfying `north ≥ south` and — outside antimeridian cases —
`east ≥ west`, or the violation is reported as the typed bounding-box
extent error and no request is issued. -/
theorem c5_bbox_validation (g : Geometry) (ids : List String)
    (tf : ℚ → ℚ → ℚ → ℚ → JsExtent) (tp : String → TransportResult) (now : Nat)
    (x0 y0 x1 y1 tx0 ty0 tx1 ty1 : ℚ)
    (hfe : finites g.extent = some (x0, y0, x1, y1))
    (hw : 0 < x1 - x0) (hh : 0 < y1 - y0)
    (hft : finites (tf x0 y0 x1 y1) = some (tx0, ty0, tx1, ty1)) :
    (toFixed6 ty0 ≤ toFixed6 ty1 ∧
      (|toFixed6 tx1 - toFixed6 tx0| < 180 → toFixed6 tx0 ≤ toFixed6 tx1) ∧
      (fetchTry g ids tf tp now).1 =
        [overpassQueryFor ids (bboxString (toFixed6 ty0) (toFixed6 tx0)
          (toFixed6 ty1) (toFixed6 tx1))]) ∨
    (((fetchTry g ids tf tp now).2.2 = Except.error PipelineError.bboxNS ∨
        (fetchTry g ids tf tp now).2.2 = Except.error PipelineError.bboxEW) ∧
      (fetchTry g ids tf tp now).1 = []) := by
  have hdeg : ¬ ((x1 - x0 ≤ 0 ∧ x1 ≠ x0) ∨ (y1 - y0 ≤ 0 ∧ y1 ≠ y0)) := by
    rintro (⟨h1, _⟩ | ⟨h1, _⟩) <;> linarith
  by_cases hns : toFixed6 ty1 < toFixed6 ty0
  · rw [fetchTry_bboxNS g ids tf tp now x0 y0 x1 y1 tx0 ty0 tx1 ty1 hfe hdeg hft hns]
    exact Or.inr ⟨Or.inl rfl, rfl⟩
  · by_cases hew : toFixed6 tx1 < toFixed6 tx0 ∧ |toFixed6 tx1 - toFixed6 tx0| < 180
    · rw [fetchTry_bboxEW g ids tf tp now x0 y0 x1 y1 tx0 ty0 tx1 ty1 hfe hdeg hft hns hew]
      exact Or.inr ⟨Or.inr rfl, rfl⟩
    · rw [fetchTry_proceed g ids tf tp now x0 y0 x1 y1 tx0 ty0 tx1 ty1 hfe hdeg hft hns hew]
      refine Or.inl ⟨not_lt.mp hns, ?_, ?_⟩
      · intro habs
        by_contra hlt
        exact hew ⟨not_le.mp hlt, habs⟩
      · by_cases hok : (tp (overpassQueryFor ids (bboxString (toFixed6 ty0) (toFixed6 tx0)
          (toFixed6 ty1) (toFixed6 tx1)))).ok <;> simp [hok]

/-- C5 witness: the validation statement at the concrete scenario inputs. -/
theorem c5_bbox_validation_witness :
    (toFixed6 (-333/1000000) ≤ toFixed6 (-324/1000000) ∧
      (|toFixed6 (-521/1000000) - toFixed6 (-53/100000)| < 180 →
        toFixed6 (-53/100000) ≤ toFixed6 (-521/1000000)) ∧
      (fetchTry scenarioGeometry ["roads_paths"] sampleTransform sampleTransport 42).1 =
        [overpassQueryFor ["roads_paths"] (bboxString (toFixed6 (-333/1000000))
          (toFixed6 (-53/100000)) (toFixed6 (-324/1000000)) (toFixed6 (-521/1000000)))]) ∨
    (((fetchTry scenarioGeometry ["roads_paths"] sampleTransform sampleTransport
          42).2.2 = Except.error PipelineError.bboxNS ∨
        (fetchTry scenarioGeometry ["roads_paths"] sampleTransform sampleTransport
          42).2.2 = Except.error PipelineError.bboxEW) ∧
      (fetchTry scenarioGeometry ["roads_paths"] sampleTransform sampleTransport
        42).1 = []) :=
  c5_bbox_validation scenarioGeometry ["roads_paths"] sampleTransform sampleTransport 42
    (-59) (-37) (-58) (-36) (-53/100000) (-333/1000000) (-521/1000000) (-324/1000000)
    rfl (by norm_num) (by norm_num) rfl

/-- A polygon geometry whose planar extent holds a non-finite coordinate. -/
def badGeometry : Geometry :=
  { geomType := GeomType.polygon, extent := ⟨none, some 0, some 1, some 1⟩ }

/-- A drawn polygon whose planar extent holds a non-finite coordinate. -/
def badPolygon : DrawnFeature :=
  { geometry := some badGeometry }

/-- C6: if the planar extent of the drawn polygon holds a non-finite
coordinate — or the planar extent is valid but the transformed geographic
extent holds one — the run fails with the corresponding typed extent error
and no network request is issued. -/
theorem c6_nonfinite_extent_no_request (fetching0 : Bool) (xs : List DrawnFeature)
    (f : DrawnFeature) (ids : List String) (tf : ℚ → ℚ → ℚ → ℚ → JsExtent)
    (tp : String → TransportResult) (now : Nat) (g : Geometry)
    (hids : ids.length ≠ 0) (hg : f.geometry = some g)
    (hpoly : g.geomType = GeomType.polygon)
    (hbad : finites g.extent = none ∨
      ∃ x0 y0 x1 y1, finites g.extent = some (x0, y0, x1, y1) ∧
        ¬ ((x1 - x0 ≤ 0 ∧ x1 ≠ x0) ∨ (y1 - y0 ≤ 0 ∧ y1 ≠ y0)) ∧
        finites (tf x0 y0 x1 y1) = none) :
    (fetchOSMData fetching0 (some (xs ++ [f])) ids tf tp now).requests = [] ∧
    ((fetchOSMData fetching0 (some (xs ++ [f])) ids tf tp now).outcome =
        RunOutcome.errorCaught PipelineError.invalidExtent ∨
      (fetchOSMData fetching0 (some (xs ++ [f])) ids tf tp now).outcome =
        RunOutcome.errorCaught PipelineError.transformFailed) := by
  rw [fetchOSMData_concat]
  show (fetchCore fetching0 f ids tf tp now).requests = [] ∧
    ((fetchCore fetching0 f ids tf tp now).outcome = _ ∨
      (fetchCore fetching0 f ids tf tp now).outcome = _)
  rw [fetchCore_run fetching0 f ids tf tp now g hids hg hpoly]
  rcases hbad with hfe | ⟨x0, y0, x1, y1, hfe, hdeg, hft⟩
  · rw [fetchTry_nonfinite g ids tf tp now hfe]
    exact ⟨rfl, Or.inl rfl⟩
  · rw [fetchTry_transform_nonfinite g ids tf tp now x0 y0 x1 y1 hfe hdeg hft]
    exact ⟨rfl, Or.inr rfl⟩

/-- C6 witness: a non-finite planar extent at concrete inputs. -/
theorem c6_nonfinite_extent_no_request_witness :
    (fetchOSMData false (some ([] ++ [badPolygon])) ["roads_paths"] sampleTransform
      sampleTransport 0).requests = [] ∧
    ((fetchOSMData false (some ([] ++ [badPolygon])) ["roads_paths"] sampleTransform
        sampleTransport 0).outcome =
        RunOutcome.errorCaught PipelineError.invalidExtent ∨
      (fetchOSMData false (some ([] ++ [badPolygon])) ["roads_paths"] sampleTransform
        sampleTransport 0).outcome =
        RunOutcome.errorCaught PipelineError.transformFailed) :=
  c6_nonfinite_extent_no_request false [] badPolygon ["roads_paths"] sampleTransform
    sampleTransport 0 badGeometry (by decide) rfl rfl (Or.inl rfl)

/-- C7 counterexample: an invocation with an empty category set and an
empty drawing source terminates with the "Sin Dibujos" condition, not
NoCategorySelected — the drawing guards run first — so "every invocation
with an empty category set terminates with NoCategorySelected" is false as
stated (no request is made either way). -/
theorem c7_counterexample_no_drawings_first :
    (fetchOSMData false (some []) [] sampleTransform sampleTransport 0).outcome =
      RunOutcome.noDrawings ∧
    (fetchOSMData false (some []) [] sampleTransform sampleTransport 0).outcome ≠
      RunOutcome.noCategories ∧
    (fetchOSMData false (some []) [] sampleTransform sampleTransport 0).requests = [] := by
  decide

/-- C7 (amended): once the drawing-source guards pass, an empty category
set terminates the run with NoCategorySelected and no request; every run
issues at most one request, and any issued request carries the combined
query concatenating every selected category's fragment at one bbox string
(one round trip for all categories). -/
theorem c7_amended_single_batched_request (fetching0 : Bool) (fs : List DrawnFeature)
    (ids : List String) (tf : ℚ → ℚ → ℚ → ℚ → JsExtent)
    (tp : String → TransportResult) (now : Nat) (hne : fs ≠ []) :
    (ids = [] → (fetchOSMData fetching0 (some fs) ids tf tp now).outcome =
        RunOutcome.noCategories ∧
      (fetchOSMData fetching0 (some fs) ids tf tp now).requests = []) ∧
    (fetchOSMData fetching0 (some fs) ids tf tp now).requests.length ≤ 1 ∧
    (∀ q ∈ (fetchOSMData fetching0 (some fs) ids tf tp now).requests,
      ids ≠ [] ∧ ∃ bboxStr, q = overpassQueryFor ids bboxStr) := by
  rcases List.eq_nil_or_concat fs with rfl | ⟨xs, f, rfl⟩
  · exact absurd rfl hne
  · simp only [List.concat_eq_append] at hne ⊢
    rw [fetchOSMData_concat]
    refine ⟨?_, ?_, ?_⟩
    · rintro rfl
      exact ⟨rfl, rfl⟩
    · show (fetchCore fetching0 f ids tf tp now).requests.length ≤ 1
      rcases fetchCore_requests_shape fetching0 f ids tf tp now with h | ⟨g, h⟩
      · rw [h]; simp
      · rw [h]
        rcases fetchTry_requests_shape g ids tf tp now with h2 | ⟨b, h2⟩ <;> rw [h2] <;> simp
    · intro q hq
      replace hq : q ∈ (fetchCore fetching0 f ids tf tp now).requests := hq
      constructor
      · rintro rfl
        rw [fetchCore_noCategories] at hq
        exact absurd hq (List.not_mem_nil q)
      · rcases fetchCore_requests_shape fetching0 f ids tf tp now with h | ⟨g, h⟩
        · rw [h] at hq
          exact absurd hq (List.not_mem_nil q)
        · rw [h] at hq
          rcases fetchTry_requests_shape g ids tf tp now with h2 | ⟨b, h2⟩
          · rw [h2] at hq
            exact absurd hq (List.not_mem_nil q)
          · rw [h2] at hq
            rcases List.mem_singleton.mp hq with rfl
            exact ⟨b, rfl⟩

/-- C7 witness: empty category set with a drawn polygon in the source. -/
theorem c7_amended_single_batched_request_witness :
    (fetchOSMData false (some [samplePolygon]) [] sampleTransform sampleTransport
      0).outcome = RunOutcome.noCategories ∧
    (fetchOSMData false (some [samplePolygon]) [] sampleTransform sampleTransport
      0).requests = [] :=
  (c7_amended_single_batched_request false [samplePolygon] [] sampleTransform
    sampleTransport 0 (by decide)).1 rfl

/-- C9 counterexample: in the §8 scenario the single created layer is named
"OSM Rutas y Caminos (3)" — the registry's Spanish label — not
"OSM Roads & Paths (3)" as the claim states. -/
theorem c9_counterexample_layer_name :
    (scenarioRunAt 42).addedLayers.map (fun l => l.name) = ["OSM Rutas y Caminos (3)"] ∧
    "OSM Rutas y Caminos (3)" ≠ "OSM Roads & Paths (3)" := by
  with_unfolding_all decide

/-- C9 (amended): in the scenario (polygon with planar extent
`[-59, -37, -58, -36]` transforming to a valid geographic box, category
`roads_paths` selected, a response with 3 matching and 2 non-matching
features), exactly one new Layer is created, named
`"OSM Rutas y Caminos (3)"` (the category label followed by the feature
count in parentheses), with id `osm-roads_paths-<timestamp>` generated from
the category id and the timestamp, and the registry grows by exactly this
one appended layer. -/
theorem c9_amended_scenario :
    (scenarioRunAt 42).addedLayers.length = 1 ∧
    (scenarioRunAt 42).addedLayers.map (fun l => l.name) = ["OSM Rutas y Caminos (3)"] ∧
    (scenarioRunAt 42).addedLayers.map (fun l => l.id) = ["osm-roads_paths-42"] ∧
    (scenarioRunAt 43).addedLayers.map (fun l => l.id) = ["osm-roads_paths-43"] ∧
    (scenarioRunAt 42).outcome = RunOutcome.loaded 3 := by
  with_unfolding_all decide

/-- C10: `fetchOSMData` consumes only the most recently drawn feature —
two sources with the same last feature produce identical outcomes,
requests, added layers and flag — and it requires that feature's geometry
to be a Polygon: a last-drawn line/point (or null-geometry) feature ends
the run with the invalid-geometry condition, no request and no layers. -/
theorem c10_last_feature_polygon_guard (fetching0 : Bool) (xs ys : List DrawnFeature)
    (f : DrawnFeature) (ids : List String) (tf : ℚ → ℚ → ℚ → ℚ → JsExtent)
    (tp : String → TransportResult) (now : Nat) (hids : ids.length ≠ 0) :
    ((fetchOSMData fetching0 (some (xs ++ [f])) ids tf tp now).outcome =
       (fetchOSMData fetching0 (some (ys ++ [f])) ids tf tp now).outcome ∧
     (fetchOSMData fetching0 (some (xs ++ [f])) ids tf tp now).requests =
       (fetchOSMData fetching0 (some (ys ++ [f])) ids tf tp now).requests ∧
     (fetchOSMData fetching0 (some (xs ++ [f])) ids tf tp now).addedLayers =
       (fetchOSMData fetching0 (some (ys ++ [f])) ids tf tp now).addedLayers ∧
     (fetchOSMData fetching0 (some (xs ++ [f])) ids tf tp now).isFetchingFinal =
       (fetchOSMData fetching0 (some (ys ++ [f])) ids tf tp now).isFetchingFinal) ∧
    (∀ g, f.geometry = some g → g.geomType ≠ GeomType.polygon →
      (fetchOSMData fetching0 (some (xs ++ [f])) ids tf tp now).outcome =
        RunOutcome.invalidGeometry ∧
      (fetchOSMData fetching0 (some (xs ++ [f])) ids tf tp now).requests = [] ∧
      (fetchOSMData fetching0 (some (xs ++ [f])) ids tf tp now).addedLayers = []) ∧
    (f.geometry = none →
      (fetchOSMData fetching0 (some (xs ++ [f])) ids tf tp now).outcome =
        RunOutcome.invalidGeometry) := by
  rw [fetchOSMData_concat fetching0 xs f ids tf tp now,
    fetchOSMData_concat fetching0 ys f ids tf tp now]
  refine ⟨⟨rfl, rfl, rfl, rfl⟩, ?_, ?_⟩
  · intro g hg hpoly
    simp only [fetchCore]
    rw [if_neg hids]
    simp only [hg]
    rw [if_pos hpoly]
    exact ⟨rfl, rfl, rfl⟩
  · intro hg
    simp only [fetchCore]
    rw [if_neg hids]
    simp only [hg]

/-- C10 witness: a line drawn after a polygon — only the line is used, and
the run ends with the invalid-geometry condition. -/
theorem c10_last_feature_polygon_guard_witness :
    (fetchOSMData false (some ([samplePolygon] ++ [sampleLine])) ["roads_paths"]
      sampleTransform sampleTransport 0).outcome = RunOutcome.invalidGeometry ∧
    (fetchOSMData false (some ([samplePolygon] ++ [sampleLine])) ["roads_paths"]
      sampleTransform sampleTransport 0).requests = [] ∧
    (fetchOSMData false (some ([samplePolygon] ++ [sampleLine])) ["roads_paths"]
      sampleTransform sampleTransport 0).addedLayers = [] :=
  (c10_last_feature_polygon_guard false [samplePolygon] [] sampleLine ["roads_paths"]
    sampleTransform sampleTransport 0 (by decide)).2.1
    { geomType := GeomType.lineString, extent := ⟨some 0, some 0, some 1, some 1⟩ }
    rfl (by decide)
